import Mathlib

/-!
Verification development for the PSP facade of the payroll-engine repository
(`src/payroll_engine/psp/psp.py`).

The facade (`PSP` / `AsyncPSP`) is embedded shallowly: every database or
service interaction is represented either as an oracle input (the value the
service returned, e.g. the `GateResult` of `FundingGateService.evaluate_commit_gate`,
the reservation id returned by `LedgerService.create_reservation`, the
`SubmissionResult` of `PaymentOrchestrator.submit`) or as an element of an
explicit effect trace (`Effect`) recording, in program order, every service
call and every domain event the facade emits.  Randomly generated
`correlation_id` values (`uuid4()`), which flow only into event payloads and
result fields that no property here depends on, are omitted.  UUIDs are
opaque and modelled as naturals; exact decimal amounts are modelled as
integers (the code performs only addition and comparison on them).
-/

/-- UUIDs are opaque identifiers; the code only ever compares and prints them. -/
abbrev UUID := Nat

/-- String constants used in application position. -/
def key_pay_statement : String := "pay_statement_id"

def key_tax_liability : String := "tax_liability_id"

def key_obligation : String := "obligation_id"

def unknown_str : String := "Unknown"

def unknown_reason_str : String := "Unknown reason"

def join_sep : String := "; "

def colon_str : String := ":"

def empty_str : String := ""

def insufficient_upper : String := "INSUFFICIENT"

def insufficient_lower : String := "insufficient"

def commit_gate_key_head : String := "commit_gate:"

def pay_gate_key_head : String := "pay_gate:"

def no_provider_msg : String := "No provider registered for rail: "

def unknown_error_str : String := "Unknown error"

/-- A reason dict carried by a gate result; `code` and `message` are the keys
the facade reads (`r.get("code")`, `r.get("message")`), each possibly absent. -/
structure Reason where
  code : Option String
  message : Option String
  deriving DecidableEq, Repr

/-- GateResult of `FundingGateService` as consumed by the facade:
`passed`, `reasons`, `available_amount`, `shortfall`. -/
structure GateResult where
  passed : Bool
  available_amount : Int
  required_amount : Int
  shortfall : Int
  reasons : List Reason
  deriving DecidableEq, Repr

/-- PSPConfig (psp.py lines 183-201), with the source defaults. -/
structure PSPConfig where
  commit_gate_strict : Bool := false
  pay_gate_always_enforced : Bool := true
  reservation_ttl_hours : Nat := 24
  default_rail : String := "ach"
  default_funding_model : String := "prefund_all"
  emit_events : Bool := true
  deriving DecidableEq, Repr

/-- PayrollItem: one payment in a batch.  The `metadata : dict[str, Any]`
is used by the facade only through `.get(key, default)` with UUID values,
so it is modelled as an association list. -/
structure PayrollItem where
  payee_type : String
  payee_ref_id : UUID
  amount : Int
  purpose : String
  metadata : List (String × UUID) := []
  deriving DecidableEq, Repr

/-- PayrollBatch. -/
structure PayrollBatch where
  batch_id : UUID
  tenant_id : UUID
  legal_entity_id : UUID
  pay_period_id : UUID
  funding_account_id : UUID
  items : List PayrollItem
  idempotency_key : String
  deriving DecidableEq, Repr

/-- CommitStatus enum. -/
inductive CommitStatus where
  | APPROVED
  | BLOCKED_POLICY
  | BLOCKED_FUNDS
  | PARTIAL
  deriving DecidableEq, Repr

/-- ExecuteStatus enum. -/
inductive ExecuteStatus where
  | SUCCESS
  | PARTIAL
  | FAILED
  | BLOCKED
  deriving DecidableEq, Repr

/-- CallbackStatus enum. -/
inductive CallbackStatus where
  | PROCESSED
  | DUPLICATE
  | INVALID
  | UNKNOWN
  deriving DecidableEq, Repr

/-- CommitResult (correlation_id omitted, see module docstring). -/
structure CommitResult where
  status : CommitStatus
  batch_id : UUID
  reservation_id : Option UUID
  total_amount : Int
  approved_count : Nat
  blocked_count : Nat
  block_reason : Option String
  deriving DecidableEq, Repr

/-- An entry of `ExecuteResult.failures`; the code builds dicts with keys
`payee_ref_id`, `amount` (stringified) and `error` (possibly a missing
message); absent keys are `none`. -/
structure Failure where
  payee_ref_id : Option String
  amount : Option String
  error : Option String
  deriving DecidableEq, Repr

/-- ExecuteResult (correlation_id omitted). -/
structure ExecuteResult where
  status : ExecuteStatus
  batch_id : UUID
  submitted_count : Nat
  failed_count : Nat
  failures : List Failure
  deriving DecidableEq, Repr

/-- CallbackResult (correlation_id omitted). -/
structure CallbackResult where
  status : CallbackStatus
  payment_instruction_id : Option UUID
  previous_status : Option String
  new_status : Option String
  deriving DecidableEq, Repr

/-- SubmissionResult of `PaymentOrchestrator.submit` as consumed by the facade. -/
structure SubmissionResult where
  accepted : Bool
  attempt_id : Option UUID
  provider_request_id : Option String
  message : Option String
  deriving DecidableEq, Repr

/-- The row returned by `_find_instruction_by_provider_ref`. -/
structure InstructionRow where
  instruction_id : UUID
  status : String
  amount : Int
  legal_entity_id : UUID
  deriving DecidableEq, Repr

/-- The callback payload fields read by `handle_provider_callback`. -/
structure CallbackPayload where
  provider_request_id : Option String
  status : Option String
  return_code : Option String
  return_reason : Option String
  amount : Option Int
  deriving DecidableEq, Repr

/-- Does `hay` start with `needle` (on character lists)? -/
def chars_start_with : List Char → List Char → Bool
  | [], _ => true
  | _ :: _, [] => false
  | a :: as, b :: bs => a == b && chars_start_with as bs

/-- Is `needle` a contiguous run inside `hay` (on character lists)? -/
def chars_contain (needle : List Char) : List Char → Bool
  | [] => needle.isEmpty
  | b :: bs => chars_start_with needle (b :: bs) || chars_contain needle bs

/-- Boolean substring containment, the semantics of the Python `in` operator
on strings as used by `_reasons_contain_insufficient`. -/
def str_contains (hay needle : String) : Bool :=
  chars_contain needle.toList hay.toList

/-- `_summarize_reasons` (psp.py lines 204-209). -/
def summarize_reasons (reasons : List Reason) : String :=
  if reasons.isEmpty then unknown_reason_str
  else
    String.intercalate join_sep
      (reasons.map fun r => r.message.getD (r.code.getD unknown_str))

/-- `_reasons_contain_insufficient` (psp.py lines 212-219). -/
def reasons_contain_insufficient (reasons : List Reason) : Bool :=
  reasons.any fun r =>
    str_contains (r.code.getD empty_str).toUpper insufficient_upper ||
    str_contains (r.message.getD empty_str).toLower insufficient_lower

/-- `sum(item.amount for item in batch.items)`. -/
def batch_total (batch : PayrollBatch) : Int :=
  (batch.items.map PayrollItem.amount).sum

/-- The per-item idempotency key built in the execute loop:
`f"{batch_id}:{item.payee_ref_id}:{item.purpose}"`. -/
def item_key (batch_id : UUID) (item : PayrollItem) : String :=
  toString batch_id ++ colon_str ++ toString item.payee_ref_id ++ colon_str ++ item.purpose

/-- Python `s or default` on an optional string: `None` and the empty string
are falsy. -/
def py_str_or (s : Option String) (default : String) : String :=
  match s with
  | none => default
  | some v => if v.isEmpty then default else v

/-- `rail = rail or self._config.default_rail`. -/
def resolve_rail (cfg : PSPConfig) (rail : Option String) : String :=
  py_str_or rail cfg.default_rail

/-- The purpose-specific creation calls of the `PaymentOrchestrator`, with the
exact argument lists the facade passes. -/
inductive OrchestratorCall where
  | createEmployeeNet (tenant_id legal_entity_id employee_id pay_statement_id : UUID)
      (amount : Int) (idempotency_key : String) (metadata : List (String × UUID))
  | createTax (tenant_id legal_entity_id tax_agency_id tax_liability_id : UUID)
      (amount : Int) (idempotency_key : String) (metadata : List (String × UUID))
  | createThirdParty (tenant_id legal_entity_id provider_id obligation_id : UUID)
      (amount : Int) (idempotency_key : String) (metadata : List (String × UUID))
  deriving DecidableEq, Repr

/-- `PSP._create_instruction_for_item` (psp.py lines 610-661): routes by
purpose to the purpose-specific orchestrator method; unknown purposes
default to `create_employee_net_instruction`. -/
def PSP.create_instruction_for_item (tenant_id legal_entity_id batch_id : UUID)
    (item : PayrollItem) (idempotency_key : String) : OrchestratorCall :=
  if item.purpose = "employee_net" then
    OrchestratorCall.createEmployeeNet tenant_id legal_entity_id item.payee_ref_id
      ((item.metadata.lookup key_pay_statement).getD batch_id)
      item.amount idempotency_key item.metadata
  else if item.purpose = "tax_payment" then
    OrchestratorCall.createTax tenant_id legal_entity_id item.payee_ref_id
      ((item.metadata.lookup key_tax_liability).getD batch_id)
      item.amount idempotency_key item.metadata
  else if item.purpose = "vendor_payment" then
    OrchestratorCall.createThirdParty tenant_id legal_entity_id item.payee_ref_id
      ((item.metadata.lookup key_obligation).getD batch_id)
      item.amount idempotency_key item.metadata
  else
    OrchestratorCall.createEmployeeNet tenant_id legal_entity_id item.payee_ref_id
      ((item.metadata.lookup key_pay_statement).getD batch_id)
      item.amount idempotency_key item.metadata

/-- `AsyncPSP._create_instruction_for_item` (psp.py lines 1301-1355): every
branch, including `tax_payment` and `vendor_payment`, calls
`create_employee_net_instruction` with the employee-net argument list. -/
def AsyncPSP.create_instruction_for_item (tenant_id legal_entity_id batch_id : UUID)
    (item : PayrollItem) (idempotency_key : String) : OrchestratorCall :=
  if item.purpose = "employee_net" then
    OrchestratorCall.createEmployeeNet tenant_id legal_entity_id item.payee_ref_id
      ((item.metadata.lookup key_pay_statement).getD batch_id)
      item.amount idempotency_key item.metadata
  else if item.purpose = "tax_payment" then
    OrchestratorCall.createEmployeeNet tenant_id legal_entity_id item.payee_ref_id
      ((item.metadata.lookup key_pay_statement).getD batch_id)
      item.amount idempotency_key item.metadata
  else if item.purpose = "vendor_payment" then
    OrchestratorCall.createEmployeeNet tenant_id legal_entity_id item.payee_ref_id
      ((item.metadata.lookup key_pay_statement).getD batch_id)
      item.amount idempotency_key item.metadata
  else
    OrchestratorCall.createEmployeeNet tenant_id legal_entity_id item.payee_ref_id
      ((item.metadata.lookup key_pay_statement).getD batch_id)
      item.amount idempotency_key item.metadata

/-- Domain events emitted by the facade, with the payload fields the facade
computes that matter to the properties (full payloads live in the events
package, which only re-exports the types used here). -/
inductive Event where
  | FundingRequested (funding_request_id : UUID) (requested_amount : Int)
  | FundingApproved (funding_request_id : UUID) (approved_amount : Int)
  | FundingBlocked (funding_request_id : UUID) (requested_amount : Int) (block_reason : String)
  | FundingInsufficientFunds (funding_request_id : UUID) (requested_amount : Int) (shortfall : Int)
  | PaymentInstructionCreated (payment_instruction_id : UUID) (purpose : String) (amount : Int)
  | PaymentSubmitted (payment_instruction_id : UUID)
  | PaymentFailed (payment_instruction_id : UUID) (failure_reason : String)
  | PaymentSettled (payment_instruction_id : UUID) (amount : Int)
  | PaymentReturned (payment_instruction_id : UUID) (amount : Int) (return_code : String)
  | LiabilityClassified (payment_instruction_id : UUID) (amount : Int)
  deriving DecidableEq, Repr

/-- The observable actions of one facade call, in program order: service
calls plus emitted domain events. -/
inductive Effect where
  | evalCommitGate (idempotency_key : String) (strict : Bool)
  | evalPayGate (pay_run_id : UUID) (idempotency_key : String)
  | createReservation (amount : Int) (source_id : UUID)
  | releaseReservation (reservation_id : UUID) (consumed : Bool)
  | createInstruction (call : OrchestratorCall)
  | submitToProvider (payment_instruction_id : UUID)
  | updateStatus (payment_instruction_id : UUID) (new_status : String) (provider_request_id : String)
  | recordLiability (payment_instruction_id : UUID)
  | emitEvent (e : Event)
  deriving DecidableEq, Repr

/-- Discriminator: is this effect a ledger `create_reservation` call? -/
def Effect.is_create_reservation : Effect → Bool
  | Effect.createReservation _ _ => true
  | _ => false

/-- Discriminator: is this effect a ledger `release_reservation` call? -/
def Effect.is_release_reservation : Effect → Bool
  | Effect.releaseReservation _ _ => true
  | _ => false

/-- Discriminator: is this effect a pay-gate evaluation? -/
def Effect.is_eval_pay_gate : Effect → Bool
  | Effect.evalPayGate _ _ => true
  | _ => false

/-- Discriminator: is this effect a provider submission? -/
def Effect.is_submit : Effect → Bool
  | Effect.submitToProvider _ => true
  | _ => false

/-- Discriminator: is this effect the emission of a FundingRequested event? -/
def Effect.is_funding_requested : Effect → Bool
  | Effect.emitEvent (Event.FundingRequested _ _) => true
  | _ => false

/-- `PSP.commit_payroll_batch` (psp.py lines 288-428).  Oracle inputs:
`emitter` says whether an event emitter was supplied; `gate` is the value
`FundingGateService.evaluate_commit_gate` returned; `fresh_reservation_id`
is the id `LedgerService.create_reservation` returned (the facade passes it
no idempotency key).  Returns the result and the effect trace. -/
def PSP.commit_payroll_batch (cfg : PSPConfig) (emitter : Bool) (gate : GateResult)
    (fresh_reservation_id : UUID) (batch : PayrollBatch) :
    CommitResult × List Effect :=
  let total := batch_total batch
  let ev0 : List Effect :=
    if emitter && cfg.emit_events then
      [Effect.emitEvent (Event.FundingRequested batch.batch_id total)]
    else []
  let gate_eff : List Effect :=
    [Effect.evalCommitGate (commit_gate_key_head ++ batch.idempotency_key) cfg.commit_gate_strict]
  if gate.passed then
    let res_eff : List Effect := [Effect.createReservation total batch.batch_id]
    let ev_ok : List Effect :=
      if emitter && cfg.emit_events then
        [Effect.emitEvent (Event.FundingApproved batch.batch_id total)]
      else []
    (⟨CommitStatus.APPROVED, batch.batch_id, some fresh_reservation_id, total,
      batch.items.length, 0, none⟩,
     ev0 ++ gate_eff ++ res_eff ++ ev_ok)
  else
    let summary := summarize_reasons gate.reasons
    let insufficient := reasons_contain_insufficient gate.reasons
    let ev_blocked : List Effect :=
      if emitter && cfg.emit_events then
        if insufficient then
          [Effect.emitEvent (Event.FundingInsufficientFunds batch.batch_id total gate.shortfall)]
        else
          [Effect.emitEvent (Event.FundingBlocked batch.batch_id total summary)]
      else []
    (⟨if insufficient then CommitStatus.BLOCKED_FUNDS else CommitStatus.BLOCKED_POLICY,
      batch.batch_id, none, total, 0, batch.items.length, some summary⟩,
     ev0 ++ gate_eff ++ ev_blocked)

/-- Oracle environment for `execute_payments`: the pay-gate result the
funding-gate service returns, and per item (by position in the batch) the
instruction id `_create_instruction_for_item` returns and the
`SubmissionResult` of `PaymentOrchestrator.submit`. -/
structure ExecEnv where
  pay_gate : GateResult
  instr_id : Nat → UUID
  submit : Nat → SubmissionResult

/-- Accumulated state of the per-item loop of `execute_payments`. -/
structure RunState where
  submitted : Nat
  failed : Nat
  failures : List Failure
  trace : List Effect
  deriving Repr

/-- The per-item loop of `PSP.execute_payments` (psp.py lines 502-582):
for each item, create the instruction (routed by purpose), optionally emit
`PaymentInstructionCreated`, submit, and count/record the outcome.
`idx` is the position of the first remaining item in the original list. -/
def run_items (cfg : PSPConfig) (emitter : Bool) (env : ExecEnv)
    (tenant_id legal_entity_id batch_id : UUID) :
    Nat → List PayrollItem → RunState
  | _, [] => ⟨0, 0, [], []⟩
  | idx, item :: rest =>
    let key := item_key batch_id item
    let call := PSP.create_instruction_for_item tenant_id legal_entity_id batch_id item key
    let iid := env.instr_id idx
    let ev_created : List Effect :=
      if emitter && cfg.emit_events then
        [Effect.emitEvent (Event.PaymentInstructionCreated iid item.purpose item.amount)]
      else []
    let sres := env.submit idx
    let r := run_items cfg emitter env tenant_id legal_entity_id batch_id (idx + 1) rest
    if sres.accepted then
      let ev_ok : List Effect :=
        if emitter && cfg.emit_events then [Effect.emitEvent (Event.PaymentSubmitted iid)] else []
      ⟨r.submitted + 1, r.failed, r.failures,
       [Effect.createInstruction call] ++ ev_created ++ [Effect.submitToProvider iid]
         ++ ev_ok ++ r.trace⟩
    else
      let ev_fail : List Effect :=
        if emitter && cfg.emit_events then
          [Effect.emitEvent (Event.PaymentFailed iid (py_str_or sres.message unknown_error_str))]
        else []
      ⟨r.submitted, r.failed + 1,
       ⟨some (toString item.payee_ref_id), some (toString item.amount), sres.message⟩ :: r.failures,
       [Effect.createInstruction call] ++ ev_created ++ [Effect.submitToProvider iid]
         ++ ev_fail ++ r.trace⟩

/-- `PSP.execute_payments` (psp.py lines 430-608).  Oracle inputs as in
`ExecEnv`; `providers` is the set of registered rail names. -/
def PSP.execute_payments (cfg : PSPConfig) (emitter : Bool) (providers : List String)
    (env : ExecEnv) (tenant_id legal_entity_id batch_id funding_account_id : UUID)
    (items : List PayrollItem) (reservation_id : Option UUID) (rail : Option String) :
    ExecuteResult × List Effect :=
  let r := resolve_rail cfg rail
  if providers.contains r then
    let gate_trace : List Effect :=
      if cfg.pay_gate_always_enforced then
        [Effect.evalPayGate batch_id (pay_gate_key_head ++ toString batch_id)]
      else []
    if cfg.pay_gate_always_enforced && !env.pay_gate.passed then
      (⟨ExecuteStatus.BLOCKED, batch_id, 0, items.length,
        [⟨none, none, some (summarize_reasons env.pay_gate.reasons)⟩]⟩,
       gate_trace)
    else
      let st := run_items cfg emitter env tenant_id legal_entity_id batch_id 0 items
      let consume_trace : List Effect :=
        match reservation_id with
        | some rid => if st.failed = 0 then [Effect.releaseReservation rid true] else []
        | none => []
      let status :=
        if st.failed = 0 then ExecuteStatus.SUCCESS
        else if st.submitted = 0 then ExecuteStatus.FAILED
        else ExecuteStatus.PARTIAL
      (⟨status, batch_id, st.submitted, st.failed, st.failures⟩,
       gate_trace ++ st.trace ++ consume_trace)
  else
    (⟨ExecuteStatus.FAILED, batch_id, 0, items.length,
      [⟨none, none, some (no_provider_msg ++ r)⟩]⟩,
     [])

/-- `PSP.handle_provider_callback` (psp.py lines 785-955).  Oracle inputs:
`provider_registered` (whether `providers.get(provider_name)` found one) and
`lookup`, the row `_find_instruction_by_provider_ref` returned. -/
def PSP.handle_provider_callback (cfg : PSPConfig) (emitter : Bool)
    (provider_registered : Bool) (lookup : Option InstructionRow)
    (callback_type : String) (payload : CallbackPayload) :
    CallbackResult × List Effect :=
  if !provider_registered then
    (⟨CallbackStatus.INVALID, none, none, none⟩, [])
  else
    match payload.provider_request_id with
    | none => (⟨CallbackStatus.INVALID, none, none, none⟩, [])
    | some prid =>
      if prid.isEmpty then (⟨CallbackStatus.INVALID, none, none, none⟩, [])
      else
        match lookup with
        | none => (⟨CallbackStatus.UNKNOWN, none, none, none⟩, [])
        | some instr =>
          let previous := instr.status
          let new_status := payload.status.getD previous
          let iid := instr.instruction_id
          if previous = new_status then
            (⟨CallbackStatus.DUPLICATE, some iid, some previous, some new_status⟩, [])
          else
            let branch_trace : List Effect :=
              if callback_type = "return" || new_status = "returned" then
                let return_code := py_str_or payload.return_code unknown_str.toUpper
                let amount := payload.amount.getD instr.amount
                [Effect.recordLiability iid] ++
                  (if emitter && cfg.emit_events then
                    [Effect.emitEvent (Event.PaymentReturned iid amount return_code),
                     Effect.emitEvent (Event.LiabilityClassified iid amount)]
                  else [])
              else if callback_type = "settlement" || new_status = "settled" then
                let amount := payload.amount.getD instr.amount
                if emitter && cfg.emit_events then
                  [Effect.emitEvent (Event.PaymentSettled iid amount)]
                else []
              else []
            (⟨CallbackStatus.PROCESSED, some iid, some previous, some new_status⟩,
             branch_trace ++ [Effect.updateStatus iid new_status prid])

/-- Default PSP configuration (all source defaults). -/
def cfg_default : PSPConfig := {}

/-- The default rail name. -/
def rail_ach : String := "ach"

/-- Configuration with the pay-gate enforcement flag switched off. -/
def cfg_bypass : PSPConfig := { pay_gate_always_enforced := false }

/-- A failing pay-gate environment whose provider accepts every submission. -/
def env_gate_fails : ExecEnv :=
  ⟨⟨false, 0, 0, 0, []⟩, fun _ => 7, fun _ => ⟨true, some 11, some empty_str, none⟩⟩

/-- A passing pay-gate environment whose provider accepts every submission. -/
def env_ok : ExecEnv :=
  ⟨⟨true, 0, 0, 0, []⟩, fun _ => 7, fun _ => ⟨true, some 11, some empty_str, none⟩⟩

/-- A single employee-net payroll item. -/
def item_net : PayrollItem := ⟨"employee", 40, 5000, "employee_net", []⟩

/-- A tax-payment payroll item. -/
def item_tax : PayrollItem := ⟨"tax_authority", 50, 700, "tax_payment", []⟩

/-- A payroll item with an unrecognized purpose. -/
def item_bogus : PayrollItem := ⟨"employee", 40, 500, "bonus", []⟩

/-- A passing commit-gate result. -/
def gate_ok : GateResult := ⟨true, 10000, 5000, 0, []⟩

/-- The spec's scenario batch: two employee payments of 4000 and 1000. -/
def batch_two : PayrollBatch :=
  ⟨3, 1, 2, 4, 6,
   [⟨"employee", 40, 4000, "employee_net", []⟩, ⟨"employee", 41, 1000, "employee_net", []⟩],
   "batch-key-1"⟩

/-- An instruction already in state `returned`. -/
def instr_returned : InstructionRow := ⟨5, "returned", 1000, 2⟩

/-- A stale provider callback payload carrying status `settled`. -/
def payload_settled : CallbackPayload := ⟨some "prq-1", some "settled", none, none, none⟩

/-- C1: with `pay_gate_always_enforced := False` the facade skips
`evaluate_pay_gate` entirely and submits to the provider even though the
pay-gate oracle would fail, returning `success` — so under this
configuration a payment item is submitted although the pay-gate evaluation
for the batch was never performed, contrary to the claim (and to the
config field's own comment that the pay gate cannot be bypassed). -/
theorem execute_payments_bypasses_pay_gate_when_flag_off :
    (PSP.execute_payments cfg_bypass true [rail_ach] env_gate_fails 1 2 3 4
        [item_net] none none).2.contains (Effect.submitToProvider 7) = true ∧
    (PSP.execute_payments cfg_bypass true [rail_ach] env_gate_fails 1 2 3 4
        [item_net] none none).2.all (fun e => !e.is_eval_pay_gate) = true ∧
    (PSP.execute_payments cfg_bypass true [rail_ach] env_gate_fails 1 2 3 4
        [item_net] none none).1.status = ExecuteStatus.SUCCESS ∧
    env_gate_fails.pay_gate.passed = false := by
  decide

/-- C2: on a `tax_payment` item the synchronous facade routes creation to
`create_tax_instruction` while the asynchronous facade routes it to
`create_employee_net_instruction`, so the two facades do not invoke the
same purpose-specific orchestrator method. -/
theorem sync_async_instruction_routing_differs :
    PSP.create_instruction_for_item 1 2 3 item_tax (item_key 3 item_tax)
      = OrchestratorCall.createTax 1 2 50 3 700 (item_key 3 item_tax) [] ∧
    AsyncPSP.create_instruction_for_item 1 2 3 item_tax (item_key 3 item_tax)
      = OrchestratorCall.createEmployeeNet 1 2 50 3 700 (item_key 3 item_tax) [] ∧
    PSP.create_instruction_for_item 1 2 3 item_tax (item_key 3 item_tax)
      ≠ AsyncPSP.create_instruction_for_item 1 2 3 item_tax (item_key 3 item_tax) := by
  decide

/-- C6: calling `commit_payroll_batch` twice with the identical batch and
idempotency key emits `FundingRequested` again on the second call (the
facade emits it before any idempotency lookup), and since the facade passes
no idempotency key to `LedgerService.create_reservation`, each call returns
the reservation id the ledger freshly created — the two calls are not
idempotent. -/
theorem commit_payroll_batch_replay_duplicates_events :
    (((PSP.commit_payroll_batch cfg_default true gate_ok 100 batch_two).2
        ++ (PSP.commit_payroll_batch cfg_default true gate_ok 101 batch_two).2).filter
        Effect.is_funding_requested).length = 2 ∧
    (PSP.commit_payroll_batch cfg_default true gate_ok 100 batch_two).1.reservation_id
      = some 100 ∧
    (PSP.commit_payroll_batch cfg_default true gate_ok 101 batch_two).1.reservation_id
      = some 101 := by
  decide

/-- C7: a stale `settled` callback arriving while the instruction is already
`returned` is not rejected: the facade emits `PaymentSettled`, forwards the
stale status to `update_status`, and reports `processed` with
`new_status = settled`. -/
theorem stale_settled_callback_emits_payment_settled :
    (PSP.handle_provider_callback cfg_default true true (some instr_returned)
        "status_update" payload_settled).1
      = ⟨CallbackStatus.PROCESSED, some 5, some "returned", some "settled"⟩ ∧
    (Effect.emitEvent (Event.PaymentSettled 5 1000))
      ∈ (PSP.handle_provider_callback cfg_default true true (some instr_returned)
          "status_update" payload_settled).2 ∧
    (Effect.updateStatus 5 "settled" "prq-1")
      ∈ (PSP.handle_provider_callback cfg_default true true (some instr_returned)
          "status_update" payload_settled).2 := by
  decide

/-- C8 counterexample: an item whose purpose is the unknown string `bonus`
is routed to `create_employee_net_instruction` and a payment instruction is
created and submitted for it (the run ends in `success`), rather than a
ValidationError being surfaced with no instruction created. -/
theorem unknown_purpose_creates_instruction_cex :
    PSP.create_instruction_for_item 1 2 3 item_bogus (item_key 3 item_bogus)
      = OrchestratorCall.createEmployeeNet 1 2 40 3 500 (item_key 3 item_bogus) [] ∧
    (Effect.createInstruction
        (OrchestratorCall.createEmployeeNet 1 2 40 3 500 (item_key 3 item_bogus) []))
      ∈ (PSP.execute_payments cfg_default true [rail_ach] env_ok 1 2 3 4
          [item_bogus] none none).2 ∧
    (PSP.execute_payments cfg_default true [rail_ach] env_ok 1 2 3 4
        [item_bogus] none none).1.status = ExecuteStatus.SUCCESS := by
  decide

/-- C9: `commit_payroll_batch` is all-or-nothing: for every configuration,
oracle gate result and batch, the returned status is never `PARTIAL`, and
either every item is approved or every item is blocked. -/
theorem commit_payroll_batch_all_or_nothing (cfg : PSPConfig) (emitter : Bool)
    (gate : GateResult) (rid : UUID) (batch : PayrollBatch) :
    (PSP.commit_payroll_batch cfg emitter gate rid batch).1.status ≠ CommitStatus.PARTIAL ∧
    (((PSP.commit_payroll_batch cfg emitter gate rid batch).1.approved_count
        = batch.items.length ∧
      (PSP.commit_payroll_batch cfg emitter gate rid batch).1.blocked_count = 0) ∨
     ((PSP.commit_payroll_batch cfg emitter gate rid batch).1.approved_count = 0 ∧
      (PSP.commit_payroll_batch cfg emitter gate rid batch).1.blocked_count
        = batch.items.length)) := by
  cases hg : gate.passed with
  | false =>
    constructor
    · by_cases hi : reasons_contain_insufficient gate.reasons <;>
        simp [PSP.commit_payroll_batch, hg, hi]
    · right
      simp [PSP.commit_payroll_batch, hg]
  | true =>
    constructor
    · simp [PSP.commit_payroll_batch, hg]
    · left
      simp [PSP.commit_payroll_batch, hg]

/-- C4: whenever the commit-gate evaluation passes, `commit_payroll_batch`
creates exactly one ledger reservation, for the sum of the batch item
amounts, and returns `approved` with that reservation id, the same total,
all items approved, none blocked and no block reason. -/
theorem commit_payroll_batch_approved_spec (cfg : PSPConfig) (emitter : Bool)
    (gate : GateResult) (rid : UUID) (batch : PayrollBatch)
    (h : gate.passed = true) :
    (PSP.commit_payroll_batch cfg emitter gate rid batch).2.filter
        Effect.is_create_reservation
      = [Effect.createReservation (batch_total batch) batch.batch_id] ∧
    (PSP.commit_payroll_batch cfg emitter gate rid batch).1
      = ⟨CommitStatus.APPROVED, batch.batch_id, some rid, batch_total batch,
         batch.items.length, 0, none⟩ := by
  constructor
  · by_cases he : (emitter && cfg.emit_events) = true <;>
      simp [PSP.commit_payroll_batch, h, he, Effect.is_create_reservation]
  · simp [PSP.commit_payroll_batch, h]

/-- C4 witness: the spec scenario batch (items 4000 and 1000) with a passing
gate yields one reservation of 5000 and an approved result. -/
theorem commit_payroll_batch_approved_spec_witness :
    (PSP.commit_payroll_batch cfg_default true gate_ok 100 batch_two).2.filter
        Effect.is_create_reservation
      = [Effect.createReservation (batch_total batch_two) batch_two.batch_id] ∧
    (PSP.commit_payroll_batch cfg_default true gate_ok 100 batch_two).1
      = ⟨CommitStatus.APPROVED, batch_two.batch_id, some 100, batch_total batch_two,
         batch_two.items.length, 0, none⟩ :=
  commit_payroll_batch_approved_spec cfg_default true gate_ok 100 batch_two (by decide)

/-- C3: whenever the commit-gate evaluation does not pass,
`commit_payroll_batch` creates no reservation, returns no reservation id,
approves nothing, blocks every item, carries the summarized gate reasons as
a non-null block reason, and the status is `BLOCKED_FUNDS` exactly when some
gate reason indicates insufficient funds (in which case, with events
enabled, `FundingInsufficientFunds` is emitted) and `BLOCKED_POLICY`
otherwise (emitting `FundingBlocked`). -/
theorem commit_payroll_batch_blocked_spec (cfg : PSPConfig) (emitter : Bool)
    (gate : GateResult) (rid : UUID) (batch : PayrollBatch)
    (h : gate.passed = false) :
    (PSP.commit_payroll_batch cfg emitter gate rid batch).1.reservation_id = none ∧
    (PSP.commit_payroll_batch cfg emitter gate rid batch).2.filter
        Effect.is_create_reservation = [] ∧
    (PSP.commit_payroll_batch cfg emitter gate rid batch).1.approved_count = 0 ∧
    (PSP.commit_payroll_batch cfg emitter gate rid batch).1.blocked_count
      = batch.items.length ∧
    (PSP.commit_payroll_batch cfg emitter gate rid batch).1.block_reason
      = some (summarize_reasons gate.reasons) ∧
    ((PSP.commit_payroll_batch cfg emitter gate rid batch).1.status
        = CommitStatus.BLOCKED_FUNDS
      ↔ reasons_contain_insufficient gate.reasons = true) ∧
    ((PSP.commit_payroll_batch cfg emitter gate rid batch).1.status
        = CommitStatus.BLOCKED_POLICY
      ↔ reasons_contain_insufficient gate.reasons = false) ∧
    (emitter = true → cfg.emit_events = true →
      ((Effect.emitEvent
          (Event.FundingInsufficientFunds batch.batch_id (batch_total batch) gate.shortfall)
          ∈ (PSP.commit_payroll_batch cfg emitter gate rid batch).2)
        ↔ reasons_contain_insufficient gate.reasons = true) ∧
      ((Effect.emitEvent
          (Event.FundingBlocked batch.batch_id (batch_total batch)
            (summarize_reasons gate.reasons))
          ∈ (PSP.commit_payroll_batch cfg emitter gate rid batch).2)
        ↔ reasons_contain_insufficient gate.reasons = false)) := by
  by_cases hi : reasons_contain_insufficient gate.reasons <;>
    by_cases he : (emitter && cfg.emit_events) = true <;>
      simp_all [PSP.commit_payroll_batch, h, Effect.is_create_reservation]

/-- The strict-mode gate result of the spec scenario: available 3000 against
a 5000 batch, shortfall 2000, with an insufficient-funds reason. -/
def gate_blocked_funds : GateResult :=
  ⟨false, 3000, 5000, 2000,
   [⟨some "INSUFFICIENT_FUNDS", some "Insufficient funds: shortfall 2000"⟩]⟩

/-- C3 witness: the blocked-funds scenario yields a `BLOCKED_FUNDS` result
with no reservation and the `FundingInsufficientFunds` event. -/
theorem commit_payroll_batch_blocked_spec_witness :
    (PSP.commit_payroll_batch cfg_default true gate_blocked_funds 100 batch_two).1.reservation_id
      = none ∧
    (PSP.commit_payroll_batch cfg_default true gate_blocked_funds 100 batch_two).2.filter
        Effect.is_create_reservation = [] ∧
    (PSP.commit_payroll_batch cfg_default true gate_blocked_funds 100 batch_two).1.approved_count
      = 0 ∧
    (PSP.commit_payroll_batch cfg_default true gate_blocked_funds 100 batch_two).1.blocked_count
      = batch_two.items.length ∧
    (PSP.commit_payroll_batch cfg_default true gate_blocked_funds 100 batch_two).1.block_reason
      = some (summarize_reasons gate_blocked_funds.reasons) ∧
    ((PSP.commit_payroll_batch cfg_default true gate_blocked_funds 100 batch_two).1.status
        = CommitStatus.BLOCKED_FUNDS
      ↔ reasons_contain_insufficient gate_blocked_funds.reasons = true) ∧
    ((PSP.commit_payroll_batch cfg_default true gate_blocked_funds 100 batch_two).1.status
        = CommitStatus.BLOCKED_POLICY
      ↔ reasons_contain_insufficient gate_blocked_funds.reasons = false) ∧
    (true = true → cfg_default.emit_events = true →
      ((Effect.emitEvent
          (Event.FundingInsufficientFunds batch_two.batch_id (batch_total batch_two)
            gate_blocked_funds.shortfall)
          ∈ (PSP.commit_payroll_batch cfg_default true gate_blocked_funds 100 batch_two).2)
        ↔ reasons_contain_insufficient gate_blocked_funds.reasons = true) ∧
      ((Effect.emitEvent
          (Event.FundingBlocked batch_two.batch_id (batch_total batch_two)
            (summarize_reasons gate_blocked_funds.reasons))
          ∈ (PSP.commit_payroll_batch cfg_default true gate_blocked_funds 100 batch_two).2)
        ↔ reasons_contain_insufficient gate_blocked_funds.reasons = false)) :=
  commit_payroll_batch_blocked_spec cfg_default true gate_blocked_funds 100 batch_two
    (by decide)

/-- Each loop iteration settles exactly one item: the submitted and failed
counters sum to the number of items, and one failure entry is recorded per
failed item. -/
theorem run_items_counts (cfg : PSPConfig) (emitter : Bool) (env : ExecEnv)
    (t l b : UUID) :
    ∀ (items : List PayrollItem) (idx : Nat),
      (run_items cfg emitter env t l b idx items).submitted
        + (run_items cfg emitter env t l b idx items).failed = items.length ∧
      (run_items cfg emitter env t l b idx items).failures.length
        = (run_items cfg emitter env t l b idx items).failed := by
  intro items
  induction items with
  | nil => intro idx; simp [run_items]
  | cons hd tl ih =>
    intro idx
    have h := ih (idx + 1)
    cases hacc : (env.submit idx).accepted <;>
      simp [run_items, hacc] <;> omega

/-- The per-item loop never touches a reservation. -/
theorem run_items_no_release (cfg : PSPConfig) (emitter : Bool) (env : ExecEnv)
    (t l b : UUID) :
    ∀ (items : List PayrollItem) (idx : Nat) (rid : UUID) (c : Bool),
      Effect.releaseReservation rid c ∉ (run_items cfg emitter env t l b idx items).trace := by
  intro items
  induction items with
  | nil => intro idx rid c; simp [run_items]
  | cons hd tl ih =>
    intro idx rid c
    have h := ih (idx + 1) rid c
    cases hacc : (env.submit idx).accepted <;>
      cases hee : (emitter && cfg.emit_events) <;>
        simp_all [run_items]

/-- C5: with a registered provider for the resolved rail and a passing pay
gate, `execute_payments` processes per item: the submitted and failed counts
sum to the number of items, `failures` holds one entry per failed item, and
the status is `SUCCESS` when nothing failed, `FAILED` when nothing was
submitted but something failed, and `PARTIAL` otherwise. -/
theorem execute_payments_per_item_isolation (cfg : PSPConfig) (emitter : Bool)
    (providers : List String) (env : ExecEnv) (t l b fa : UUID)
    (items : List PayrollItem) (reservation_id : Option UUID) (rail : Option String)
    (hprov : providers.contains (resolve_rail cfg rail) = true)
    (hgate : env.pay_gate.passed = true) :
    (PSP.execute_payments cfg emitter providers env t l b fa items
        reservation_id rail).1.submitted_count
      + (PSP.execute_payments cfg emitter providers env t l b fa items
          reservation_id rail).1.failed_count = items.length ∧
    (PSP.execute_payments cfg emitter providers env t l b fa items
        reservation_id rail).1.failures.length
      = (PSP.execute_payments cfg emitter providers env t l b fa items
          reservation_id rail).1.failed_count ∧
    ((PSP.execute_payments cfg emitter providers env t l b fa items
        reservation_id rail).1.failed_count = 0 →
      (PSP.execute_payments cfg emitter providers env t l b fa items
          reservation_id rail).1.status = ExecuteStatus.SUCCESS) ∧
    ((PSP.execute_payments cfg emitter providers env t l b fa items
        reservation_id rail).1.submitted_count = 0 ∧
     0 < (PSP.execute_payments cfg emitter providers env t l b fa items
          reservation_id rail).1.failed_count →
      (PSP.execute_payments cfg emitter providers env t l b fa items
          reservation_id rail).1.status = ExecuteStatus.FAILED) ∧
    (0 < (PSP.execute_payments cfg emitter providers env t l b fa items
          reservation_id rail).1.submitted_count ∧
     0 < (PSP.execute_payments cfg emitter providers env t l b fa items
          reservation_id rail).1.failed_count →
      (PSP.execute_payments cfg emitter providers env t l b fa items
          reservation_id rail).1.status = ExecuteStatus.PARTIAL) := by
  have hc := run_items_counts cfg emitter env t l b items 0
  have hmem : resolve_rail cfg rail ∈ providers := by simpa using hprov
  by_cases hf : (run_items cfg emitter env t l b 0 items).failed = 0
  · simp [PSP.execute_payments, hmem, hgate, hf]
    constructor
    · omega
    · rw [← List.length_eq_zero]
      omega
  · by_cases hs : (run_items cfg emitter env t l b 0 items).submitted = 0 <;>
      simp [PSP.execute_payments, hmem, hgate, hf, hs] <;> omega

/-- An environment where the pay gate passes, the provider accepts the first
submission and rejects the second. -/
def env_mixed : ExecEnv :=
  ⟨⟨true, 0, 0, 0, []⟩, fun idx => 7 + idx,
   fun idx =>
     if idx = 0 then ⟨true, some 11, some "REQ-1", none⟩
     else ⟨false, none, none, some "insufficient balance"⟩⟩

/-- C5 witness: two items, one accepted and one rejected, give a `PARTIAL`
result with one failure entry. -/
theorem execute_payments_per_item_isolation_witness :
    (PSP.execute_payments cfg_default true [rail_ach] env_mixed 1 2 3 4 batch_two.items
        (some 9) none).1.submitted_count
      + (PSP.execute_payments cfg_default true [rail_ach] env_mixed 1 2 3 4 batch_two.items
          (some 9) none).1.failed_count = batch_two.items.length ∧
    (PSP.execute_payments cfg_default true [rail_ach] env_mixed 1 2 3 4 batch_two.items
        (some 9) none).1.failures.length
      = (PSP.execute_payments cfg_default true [rail_ach] env_mixed 1 2 3 4 batch_two.items
          (some 9) none).1.failed_count ∧
    ((PSP.execute_payments cfg_default true [rail_ach] env_mixed 1 2 3 4 batch_two.items
        (some 9) none).1.failed_count = 0 →
      (PSP.execute_payments cfg_default true [rail_ach] env_mixed 1 2 3 4 batch_two.items
          (some 9) none).1.status = ExecuteStatus.SUCCESS) ∧
    ((PSP.execute_payments cfg_default true [rail_ach] env_mixed 1 2 3 4 batch_two.items
        (some 9) none).1.submitted_count = 0 ∧
     0 < (PSP.execute_payments cfg_default true [rail_ach] env_mixed 1 2 3 4 batch_two.items
          (some 9) none).1.failed_count →
      (PSP.execute_payments cfg_default true [rail_ach] env_mixed 1 2 3 4 batch_two.items
          (some 9) none).1.status = ExecuteStatus.FAILED) ∧
    (0 < (PSP.execute_payments cfg_default true [rail_ach] env_mixed 1 2 3 4 batch_two.items
          (some 9) none).1.submitted_count ∧
     0 < (PSP.execute_payments cfg_default true [rail_ach] env_mixed 1 2 3 4 batch_two.items
          (some 9) none).1.failed_count →
      (PSP.execute_payments cfg_default true [rail_ach] env_mixed 1 2 3 4 batch_two.items
          (some 9) none).1.status = ExecuteStatus.PARTIAL) :=
  execute_payments_per_item_isolation cfg_default true [rail_ach] env_mixed 1 2 3 4
    batch_two.items (some 9) none (by decide) (by decide)

/-- C8 amended: an item whose purpose is none of the three known purposes is
routed, like an `employee_net` item, to `create_employee_net_instruction`
(with `pay_statement_id` defaulted from the item metadata); no
ValidationError is surfaced and an instruction is created for it. -/
theorem unknown_purpose_defaults_to_employee_net (t l b : UUID) (item : PayrollItem)
    (key : String)
    (h1 : ¬ item.purpose = "employee_net") (h2 : ¬ item.purpose = "tax_payment")
    (h3 : ¬ item.purpose = "vendor_payment") :
    PSP.create_instruction_for_item t l b item key
      = OrchestratorCall.createEmployeeNet t l item.payee_ref_id
          ((item.metadata.lookup key_pay_statement).getD b) item.amount key
          item.metadata := by
  simp [PSP.create_instruction_for_item, h1, h2, h3]

/-- C8 amended witness: the `bonus`-purpose item is routed to the
employee-net creation call. -/
theorem unknown_purpose_defaults_to_employee_net_witness :
    PSP.create_instruction_for_item 1 2 3 item_bogus (item_key 3 item_bogus)
      = OrchestratorCall.createEmployeeNet 1 2 item_bogus.payee_ref_id
          ((item_bogus.metadata.lookup key_pay_statement).getD 3) item_bogus.amount
          (item_key 3 item_bogus) item_bogus.metadata :=
  unknown_purpose_defaults_to_employee_net 1 2 3 item_bogus (item_key 3 item_bogus)
    (by decide) (by decide) (by decide)

/-- When a provider is registered for the resolved rail and the pay gate
does not block (either not enforced or passed), `execute_payments` runs the
per-item loop and appends the conditional reservation consumption. -/
theorem execute_payments_processing (cfg : PSPConfig) (emitter : Bool)
    (providers : List String) (env : ExecEnv) (t l b fa : UUID)
    (items : List PayrollItem) (reservation_id : Option UUID) (rail : Option String)
    (hmem : resolve_rail cfg rail ∈ providers)
    (hok : cfg.pay_gate_always_enforced = false ∨ env.pay_gate.passed = true) :
    PSP.execute_payments cfg emitter providers env t l b fa items reservation_id rail
      = (⟨(if (run_items cfg emitter env t l b 0 items).failed = 0 then ExecuteStatus.SUCCESS
           else if (run_items cfg emitter env t l b 0 items).submitted = 0 then
             ExecuteStatus.FAILED
           else ExecuteStatus.PARTIAL),
          b,
          (run_items cfg emitter env t l b 0 items).submitted,
          (run_items cfg emitter env t l b 0 items).failed,
          (run_items cfg emitter env t l b 0 items).failures⟩,
         (if cfg.pay_gate_always_enforced then
            [Effect.evalPayGate b (pay_gate_key_head ++ toString b)]
          else [])
           ++ (run_items cfg emitter env t l b 0 items).trace
           ++ (match reservation_id with
               | some rid =>
                 if (run_items cfg emitter env t l b 0 items).failed = 0 then
                   [Effect.releaseReservation rid true]
                 else []
               | none => [])) := by
  rcases hok with hok | hok <;> simp [PSP.execute_payments, hmem, hok]

/-- C10: `execute_payments` consumes the reservation — a single
`release_reservation` call with `consumed = True` — exactly when a
reservation id was supplied, a provider is registered for the resolved rail,
the pay gate did not block the run, and no item failed; in every other case,
including a blocked run or a missing provider, the trace contains no
reservation release at all. -/
theorem execute_payments_reservation_frame (cfg : PSPConfig) (emitter : Bool)
    (providers : List String) (env : ExecEnv) (t l b fa : UUID)
    (items : List PayrollItem) (reservation_id : Option UUID) (rail : Option String)
    (rid : UUID) (c : Bool) :
    Effect.releaseReservation rid c
        ∈ (PSP.execute_payments cfg emitter providers env t l b fa items
            reservation_id rail).2
      ↔ (c = true ∧ reservation_id = some rid ∧
         providers.contains (resolve_rail cfg rail) = true ∧
         (cfg.pay_gate_always_enforced = false ∨ env.pay_gate.passed = true) ∧
         (PSP.execute_payments cfg emitter providers env t l b fa items
            reservation_id rail).1.failed_count = 0) := by
  have hnr := run_items_no_release cfg emitter env t l b items 0 rid c
  by_cases hprov : providers.contains (resolve_rail cfg rail) = true
  · have hmem : resolve_rail cfg rail ∈ providers := by simpa using hprov
    by_cases hok : cfg.pay_gate_always_enforced = false ∨ env.pay_gate.passed = true
    · rw [execute_payments_processing cfg emitter providers env t l b fa items
        reservation_id rail hmem hok]
      have hgt : Effect.releaseReservation rid c ∉
          (if cfg.pay_gate_always_enforced = true then
            [Effect.evalPayGate b (pay_gate_key_head ++ toString b)]
          else []) := by
        split <;> simp
      have hside : (cfg.pay_gate_always_enforced = false ∨ env.pay_gate.passed = true)
          ↔ True := iff_true_intro hok
      rcases reservation_id with _ | rid0
      · simp [hnr, hgt]
      · by_cases hf : (run_items cfg emitter env t l b 0 items).failed = 0
        · simp [hnr, hgt, hmem, hside, hf]
          constructor
          · rintro ⟨h1, h2⟩
            exact ⟨h2, h1.symm⟩
          · rintro ⟨h2, h1⟩
            exact ⟨h1.symm, h2⟩
        · simp [hnr, hgt, hf]
    · have hen : cfg.pay_gate_always_enforced = true := by
        cases h : cfg.pay_gate_always_enforced
        · exact absurd (Or.inl h) hok
        · rfl
      have hg : env.pay_gate.passed = false := by
        cases h : env.pay_gate.passed
        · rfl
        · exact absurd (Or.inr h) hok
      simp [PSP.execute_payments, hmem, hen, hg, hok]
  · have hnmem : resolve_rail cfg rail ∉ providers := by simpa using hprov
    simp [PSP.execute_payments, hnmem, hprov]
